import Mathlib

/-!
Verification of the bio-nexus knowledge-graph merge engine.

This file shallowly embeds the core of `src/knowledge_graph_updater.py`,
the validation/retry loop and `disambiguate_entity` of
`src/models/cerebras_inference.py`, and the driver loop of `main.py`.

Conventions of the embedding:
* Python dicts become association lists (`List (String × α)`) with
  insertion-order iteration; assignment replaces in place (keeping the
  entry's position) or appends, matching `dict.__setitem__`.
* Python exceptions become `Except PyErr`; code that cannot raise stays pure.
* Floats become `ℚ` (exact rationals); `difflib.SequenceMatcher.ratio` is
  embedded exactly (dynamic-programming longest match, extension loops,
  autojunk purge of popular elements for `len(b) >= 200`) but its value is
  the exact rational `2*M/T` rather than the rounded double.
* `datetime.now()` timestamps are threaded as an explicit `now : String`.
-/

/-- Python exceptions that the embedded code can raise. -/
inductive PyErr where
  | typeError (msg : String)
  | keyError (key : String)
  | valueError (msg : String)
  | attributeError (msg : String)
deriving DecidableEq, Repr

/-- Lookup in a Python dict modelled as an association list
(first — and only, since keys are unique — binding wins). -/
def dictGet {α : Type} (d : List (String × α)) (k : String) : Option α :=
  match d with
  | [] => none
  | (k', v) :: rest => if k' = k then some v else dictGet rest k

/-- Python `d[k] = v`: replace the binding in place if the key is present
(dicts keep the original position of an updated key), else append. -/
def dictInsert {α : Type} (d : List (String × α)) (k : String) (v : α) : List (String × α) :=
  match d with
  | [] => [(k, v)]
  | (k', v') :: rest => if k' = k then (k, v) :: rest else (k', v') :: dictInsert rest k v

/-- Python `d.update(src)`: each binding of `src`, in order, overwrites `d`. -/
def pyDictUpdate {α : Type} (d src : List (String × α)) : List (String × α) :=
  src.foldl (fun acc p => dictInsert acc p.1 p.2) d

/-- Python `str.lower()`, character by character (the names this system
handles are ASCII, where `Char.toLower` agrees with `str.lower`). -/
def pyLower (s : String) : String :=
  String.mk (s.data.map Char.toLower)

/-- Python `min` over a list of ints, `none` for the empty list. -/
def listMin (l : List Int) : Option Int :=
  l.foldl (fun acc y => match acc with
    | none => some y
    | some m => some (Min.min m y)) none

/-- Python `max` over a list of ints, `none` for the empty list. -/
def listMax (l : List Int) : Option Int :=
  l.foldl (fun acc y => match acc with
    | none => some y
    | some m => some (Max.max m y)) none

/-! ### difflib.SequenceMatcher(None, a, b).ratio()

The updater scores fuzzy name similarity with
`SequenceMatcher(None, name_lower, known_name).ratio()`.  We embed CPython's
algorithm: `__chain_b` builds `b2j` (indices of each element of `b`) and,
when `len(b) >= 200`, purges "popular" elements (autojunk); with
`isjunk=None` the junk set `bjunk` is empty, so the two junk-extension
loops of `find_longest_match` never fire and the non-junk extension loops
extend on any equal characters. -/

/-- Number of occurrences of `c` in `b`. -/
def countIn (b : List Char) (c : Char) : Nat :=
  (b.filter (fun c' => c' == c)).length

/-- CPython autojunk: with `len(b) >= 200`, an element occurring more than
`len(b) // 100 + 1` times is "popular" and is purged from `b2j`. -/
def isPopular (b : List Char) (c : Char) : Bool :=
  decide (200 ≤ b.length) && decide (b.length / 100 + 1 < countIn b c)

/-- `b2j[c]`: ascending indices of `c` in `b`, empty for purged popular
elements. -/
def b2j (b : List Char) (c : Char) : List Nat :=
  if isPopular b c then []
  else (List.range b.length).filter (fun j => b.get? j == some c)

/-- Running best match of the `find_longest_match` dynamic program. -/
structure FLMBest where
  besti : Nat
  bestj : Nat
  bestsize : Nat
deriving Repr

/-- Inner loop of `find_longest_match` over the `b`-indices of `a[i]`:
`k = newj2len[j] = j2len.get(j-1, 0) + 1`, keeping the first strictly
larger `k` as the best match. -/
def flmInner (j2len : Nat → Nat) (i : Nat) :
    List Nat → (Nat → Nat) → FLMBest → (Nat → Nat) × FLMBest
  | [], newj2len, best => (newj2len, best)
  | j :: js, newj2len, best =>
    let k := (if j = 0 then 0 else j2len (j - 1)) + 1
    let newj2len' := fun j' => if j' = j then k else newj2len j'
    let best' := if best.bestsize < k then ⟨i + 1 - k, j + 1 - k, k⟩ else best
    flmInner j2len i js newj2len' best'

/-- Outer loop of `find_longest_match` over `i in range(alo, ahi)`. -/
def flmOuter (a b : List Char) (blo bhi : Nat) :
    List Nat → (Nat → Nat) → FLMBest → FLMBest
  | [], _, best => best
  | i :: is', j2len, best =>
    let js := (b2j b (a.getD i 'A')).filter (fun j => decide (blo ≤ j) && decide (j < bhi))
    let (newj2len, best') := flmInner j2len i js (fun _ => 0) best
    flmOuter a b blo bhi is' newj2len best'

/-- Left extension loop: with an empty junk set, extend while the preceding
characters are equal.  The loop decrements `besti`, so it runs at most
`besti` times; `fuel` is structural recursion fuel only and the call site
supplies `besti`, which can never be exhausted. -/
def extLeft (a b : List Char) (alo blo : Nat) :
    Nat → Nat → Nat → Nat → Nat × Nat × Nat
  | 0, besti, bestj, bestsize => (besti, bestj, bestsize)
  | fuel + 1, besti, bestj, bestsize =>
    if alo < besti ∧ blo < bestj ∧ a.get? (besti - 1) = b.get? (bestj - 1) then
      extLeft a b alo blo fuel (besti - 1) (bestj - 1) (bestsize + 1)
    else
      (besti, bestj, bestsize)

/-- Right extension loop: extend while the following characters are equal.
The loop increments `bestsize` while `besti + bestsize < ahi`, so it runs at
most `ahi` times; the call site supplies `ahi` as fuel. -/
def extRight (a b : List Char) (ahi bhi : Nat) (besti bestj : Nat) :
    Nat → Nat → Nat
  | 0, bestsize => bestsize
  | fuel + 1, bestsize =>
    if besti + bestsize < ahi ∧ bestj + bestsize < bhi ∧
        a.get? (besti + bestsize) = b.get? (bestj + bestsize) then
      extRight a b ahi bhi besti bestj fuel (bestsize + 1)
    else
      bestsize

/-- `SequenceMatcher.find_longest_match(alo, ahi, blo, bhi)` with
`isjunk=None`: dynamic program over `b2j`, then the two non-junk extension
loops (the junk-extension loops are no-ops since `bjunk` is empty). -/
def find_longest_match (a b : List Char) (alo ahi blo bhi : Nat) : Nat × Nat × Nat :=
  let best := flmOuter a b blo bhi (List.range' alo (ahi - alo)) (fun _ => 0) ⟨alo, blo, 0⟩
  let (i, j, k) := extLeft a b alo blo best.besti best.besti best.bestj best.bestsize
  let k' := extRight a b ahi bhi i j ahi k
  (i, j, k')

/-- Total size of the matching blocks of `get_matching_blocks` restricted to
the given ranges: recursively take the longest match and recurse on both
sides (the queue in CPython computes the same multiset of blocks; merging
adjacent blocks preserves the total size).  `fuel` only bounds the
recursion; each recursive call strictly shrinks the `a`-range, so the
initial fuel `a.length + 1` is never exhausted. -/
def matchTotal (a b : List Char) : Nat → Nat → Nat → Nat → Nat → Nat
  | 0, _, _, _, _ => 0
  | fuel + 1, alo, ahi, blo, bhi =>
    match find_longest_match a b alo ahi blo bhi with
    | (i, j, k) =>
      if k = 0 then 0
      else matchTotal a b fuel alo i blo j + k + matchTotal a b fuel (i + k) ahi (j + k) bhi

/-- `SequenceMatcher(None, s1, s2).ratio()` as an exact rational:
`2*M / (len(a)+len(b))`, and `1` when both strings are empty
(CPython's `_calculate_ratio`).  `mkRat n d` is the exact rational `n/d`;
it is used instead of `/` so that the kernel can evaluate scores. -/
def ratioQ (s1 s2 : String) : ℚ :=
  let a := s1.data
  let b := s2.data
  let msum := matchTotal a b (a.length + 1) 0 a.length 0 b.length
  let total := a.length + b.length
  if total = 0 then 1 else mkRat (2 * msum) total


/-! ### JSON values and the extraction schema validation of
`CerebrasInference.process_abstract` (`src/models/cerebras_inference.py`) -/

/-- A JSON value, as produced by `json.loads`. -/
inductive JVal where
  | null
  | bool (b : Bool)
  | num (q : ℚ)
  | str (s : String)
  | arr (elems : List JVal)
  | obj (fields : List (String × JVal))

/-- jsonschema `{"type": "string"}`. -/
def schemaTypeString : JVal → Bool
  | .str _ => true
  | _ => false

/-- jsonschema `{"type": "number"}` (booleans are excluded by jsonschema). -/
def schemaTypeNumber : JVal → Bool
  | .num _ => true
  | _ => false

/-- jsonschema `{"type": "object"}` (the misspelled `additional_properties`
keyword in the entity schema is not a jsonschema keyword and is ignored). -/
def schemaTypeObject : JVal → Bool
  | .obj _ => true
  | _ => false

/-- A `properties` entry: validated only when the key is present. -/
def propOk (fs : List (String × JVal)) (k : String) (check : JVal → Bool) : Bool :=
  match dictGet fs k with
  | none => true
  | some v => check v

/-- A `required` entry: the key must be present. -/
def requiredOk (fs : List (String × JVal)) (k : String) : Bool :=
  (dictGet fs k).isSome

/-- `CerebrasInference._validate_entity`: the entity schema requires an
object with `name` and `type`, and `name`/`type`/`description` strings and
`external_ids` an object when present. -/
def validate_entity : JVal → Bool
  | .obj fs =>
    propOk fs "name" schemaTypeString &&
    propOk fs "type" schemaTypeString &&
    propOk fs "description" schemaTypeString &&
    propOk fs "external_ids" schemaTypeObject &&
    requiredOk fs "name" && requiredOk fs "type"
  | _ => false

/-- `CerebrasInference._validate_relation`: the relation schema requires an
object with the six listed keys, typed as in the schema when present. -/
def validate_relation : JVal → Bool
  | .obj fs =>
    propOk fs "source_entity" schemaTypeObject &&
    propOk fs "target_entity" schemaTypeObject &&
    propOk fs "relationship_type" schemaTypeString &&
    propOk fs "context" schemaTypeObject &&
    propOk fs "supporting_text" schemaTypeString &&
    propOk fs "confidence" schemaTypeNumber &&
    requiredOk fs "source_entity" && requiredOk fs "target_entity" &&
    requiredOk fs "relationship_type" && requiredOk fs "context" &&
    requiredOk fs "supporting_text" && requiredOk fs "confidence"
  | _ => false

/-- Python iteration over `extraction.get("entities", [])`: lists yield
their elements, strings their one-character substrings, dicts their keys;
other values raise `TypeError`. -/
def pyIterElems : JVal → Except PyErr (List JVal)
  | .arr l => .ok l
  | .str s => .ok (s.data.map (fun c => JVal.str (String.mk [c])))
  | .obj fs => .ok (fs.map (fun p => JVal.str p.1))
  | _ => .error (.typeError "is not iterable")

/-- One round of `entities_valid` / `relations_valid` in
`CerebrasInference.process_abstract`: both flags are computed from the
current extraction (a non-object extraction has no `.get` and raises
`AttributeError`). -/
def extractionFlags (x : JVal) : Except PyErr (Bool × Bool) :=
  match x with
  | .obj fs => do
    let ents ← pyIterElems ((dictGet fs "entities").getD (.arr []))
    let rels ← pyIterElems ((dictGet fs "relations").getD (.arr []))
    .ok (ents.all validate_entity, rels.all validate_relation)
  | _ => .error (.attributeError "object has no attribute get")

/-- The validation/repair loop of `CerebrasInference.process_abstract`
(lines 245-259), with `_fix_extraction` (an LLM round trip plus JSON parse)
as an oracle indexed by the attempt number.  The `while attempts < 3` loop
validates the initial extraction and the first two repaired extractions;
when the flags are still invalid at `attempts == 2` it calls the fixer a
third time, the loop condition `3 < 3` fails, and the third repaired
extraction is never validated.  The post-loop `raise ValueError(f"... after
primary attempts ...")` interpolates `len(attempts)` where `attempts` is the
int 3, so building the message raises `TypeError: object of type 'int' has
no len()` on both the entity and the relation branch. -/
def extraction_validation_loop (fix : Nat → JVal → Except PyErr JVal) (x0 : JVal) :
    Except PyErr JVal := do
  let (ev0, rv0) ← extractionFlags x0
  if ev0 && rv0 then return x0
  let x1 ← fix 0 x0
  let (ev1, rv1) ← extractionFlags x1
  if ev1 && rv1 then return x1
  let x2 ← fix 1 x1
  let (ev2, rv2) ← extractionFlags x2
  if ev2 && rv2 then return x2
  let x3 ← fix 2 x2
  if !ev2 then .error (.typeError "object of type has no len")
  else if !rv2 then .error (.typeError "object of type has no len")
  else return x3

/-! ### EntityInfo / RelationInfo dataclasses and
`CerebrasInference.disambiguate_entity` -/

/-- The `EntityInfo` dataclass; `description` and `external_ids` default to
`None`, which is modelled as `none`. -/
structure EntityInfo where
  name : String
  type : String
  description : Option String
  external_ids : Option (List (String × String))
deriving DecidableEq, Repr

/-- The `RelationInfo` dataclass; `context` is an opaque JSON object. -/
structure RelationInfo where
  source_entity : EntityInfo
  target_entity : EntityInfo
  relationship_type : String
  context : JVal
  supporting_text : String
  confidence : ℚ

/-- `CerebrasInference.disambiguate_entity`, as invoked by
`KnowledgeGraphUpdater.find_matching_entity`, which passes
`candidate_entities` as a list of node-id STRINGS.  Before any API call the
method builds its user message: the candidate list comprehension subscripts
each candidate as a dict (`candidate['entity_id']`), and subscripting a
`str` with a `str` raises `TypeError: string indices must be integers`.
(With an empty candidate list the comprehension is empty, but
`prompt.format(...)` then raises `KeyError` because the prompt template
contains literal unescaped braces; `find_matching_entity` only calls this
with a nonempty list.)  So the call always raises and never reaches the
LLM; no oracle parameter is needed. -/
def disambiguate_entity (new_entity : EntityInfo) (candidate_entities : List String) :
    Except PyErr (Option String) :=
  match candidate_entities with
  | [] => .error (.keyError "match")
  | _ :: _ => .error (.typeError "string indices must be integers")

/-! ### The graph document of `KnowledgeGraphUpdater`
(`src/knowledge_graph_updater.py`) -/

/-- The `properties` dict of a node, as written by `create_node`.
`description` and `external_ids` hold whatever `entity_info` carried —
`entity_info.get("description", "")` returns the stored `None` when the
key is present with value `None` (dataclass default), so both fields can
be `None`; this is modelled with `Option`. -/
structure NodeProps where
  entity_type : String
  primary_name : String
  alternative_names : List String
  external_ids : Option (List (String × String))
  description : Option String
  last_updated : String
  creation_date : String

/-- A node record: `{"type": "string", "properties": {...}}`. -/
structure NodeData where
  type : String
  properties : NodeProps

/-- The `citation_metadata` dict built in `process_abstract`; `year` is an
int or `None` (as produced by `parse_medline_record`). -/
structure Citation where
  title : String
  authors : List String
  journal : String
  year : Option Int

/-- One evidence item, as built in `create_update_edge`. -/
structure Evidence where
  paper_id : String
  citation_metadata : Citation
  experimental_context : JVal
  statistical_evidence : JVal
  extracted_text : String
  extraction_confidence : ℚ
  last_verified : String

/-- The `aggregated_metadata` dict; `last_updated` is only added by
`_update_edge_metadata`, hence optional. -/
structure AggMeta where
  total_papers : Nat
  earliest_evidence : Option Int
  latest_evidence : Option Int
  evidence_strength : ℚ
  contradictory_evidence : Bool
  last_updated : Option String

/-- An edge record as created by `create_update_edge`. -/
structure EdgeData where
  type : String
  source_node : String
  target_node : String
  relationship_type : String
  evidence : List Evidence
  aggregated_metadata : AggMeta
  last_updated : String

/-- `self.graph = {"nodes": {...}, "edges": {...}}`. -/
structure KGraph where
  nodes : List (String × NodeData)
  edges : List (String × EdgeData)

/-- The updater's in-memory state: the graph plus `self.name_to_id_map`
(`entity_aliases` is loaded and saved but never consulted by the merge
logic, so it is not modelled). -/
structure KGUState where
  graph : KGraph
  name_to_id_map : List (String × String)

/-- All case-folded known names of a node: primary plus alternatives
(the loop in `find_matching_entity`, lines 121-122). -/
def knownNames (p : NodeProps) : List String :=
  pyLower p.primary_name :: p.alternative_names.map pyLower

/-- The fuzzy-match phase of `find_matching_entity` (lines 117-127): a node
of the same `entity_type` is a candidate if any of its known names scores
at least `threshold`; the `break` after the first hit keeps each node at
most once; nodes are scanned in dict (insertion) order. -/
def fuzzyCandidates (nodes : List (String × NodeData)) (e : EntityInfo) (threshold : ℚ) :
    List String :=
  (nodes.filter (fun p =>
    p.2.properties.entity_type == e.type &&
    (knownNames p.2.properties).any
      (fun kn => decide (threshold ≤ ratioQ (pyLower e.name) kn)))).map Prod.fst

/-- Lines 129-137 of `find_matching_entity`: with no candidate, return
`None`; with candidates, delegate to `disambiguate_entity` (which, called
with node-id strings, always raises) and return a truthy `match_id` or
fall through to `None`. -/
def fuzzyPhase (st : KGUState) (e : EntityInfo) (threshold : ℚ) :
    Except PyErr (Option String) :=
  match fuzzyCandidates st.graph.nodes e threshold with
  | [] => .ok none
  | c :: cs =>
    match disambiguate_entity e (c :: cs) with
    | .error er => .error er
    | .ok (some match_id) => if match_id == "" then .ok none else .ok (some match_id)
    | .ok none => .ok none

/-- `KnowledgeGraphUpdater.find_matching_entity` (lines 102-137): exact
case-folded lookup in `name_to_id_map` first, requiring `entity_type`
equality and otherwise falling through to the fuzzy phase. -/
def find_matching_entity (st : KGUState) (e : EntityInfo) (threshold : ℚ) :
    Except PyErr (Option String) :=
  match dictGet st.name_to_id_map (pyLower e.name) with
  | some node_id =>
    match dictGet st.graph.nodes node_id with
    | none => .error (.keyError node_id)
    | some node_data =>
      if node_data.properties.entity_type == e.type then .ok (some node_id)
      else fuzzyPhase st e threshold
  | none => fuzzyPhase st e threshold

/-- `KnowledgeGraphUpdater.create_node` (lines 139-162): one more
resolution check (default threshold 0.5) before allocating
`node_{len(nodes)}` and registering the lowercased name.  The
`EntityInfo(**entity_info)` round trip through `__dict__` is the
identity. -/
def create_node (st : KGUState) (e : EntityInfo) (now : String) :
    Except PyErr (String × KGUState) :=
  match find_matching_entity st e (mkRat 1 2) with
  | .error er => .error er
  | .ok (some node_id) => .ok (node_id, st)
  | .ok none =>
    let node_id := "node_" ++ toString st.graph.nodes.length
    let nd : NodeData := {
      type := "string"
      properties := {
        entity_type := e.type
        primary_name := e.name
        alternative_names := []
        external_ids := e.external_ids
        description := e.description
        last_updated := now
        creation_date := now } }
    .ok (node_id, {
      graph := { st.graph with nodes := dictInsert st.graph.nodes node_id nd }
      name_to_id_map := dictInsert st.name_to_id_map (pyLower e.name) node_id })

/-- Python truthiness of an optional string (`None` and `""` are falsy). -/
def truthyOptStr : Option String → Bool
  | none => false
  | some s => !(s == "")

/-- Python truthiness of an optional dict (`None` and `{}` are falsy). -/
def truthyExtIds : Option (List (String × String)) → Bool
  | none => false
  | some l => !l.isEmpty

/-- Lines 168-171 of `update_node`: the description is replaced when the
incoming one is truthy and the stored one is falsy or strictly shorter. -/
def descriptionStep (p0 : NodeProps) (e : EntityInfo) : NodeProps :=
  if truthyOptStr e.description then
    (if !truthyOptStr p0.description
        || decide ((p0.description.getD "").length < (e.description.getD "").length)
     then { p0 with description := e.description } else p0)
  else p0

/-- Lines 173-177 of `update_node`: when the incoming external ids are
truthy, `properties.get("external_ids", {})` returns the STORED value —
`None` for a node created from an entity without external ids, since the
key is present — and `None.update(...)` raises `AttributeError`. -/
def externalIdsStep (p1 : NodeProps) (e : EntityInfo) : Except PyErr NodeProps :=
  if truthyExtIds e.external_ids then
    match p1.external_ids with
    | none => .error (.attributeError "NoneType object has no attribute update")
    | some d => .ok { p1 with
        external_ids := some (pyDictUpdate d (e.external_ids.getD [])) }
  else .ok p1

/-- `KnowledgeGraphUpdater.update_node` (lines 164-188).  An unknown id
raises `KeyError` at `self.graph["nodes"][node_id]`.  The description and
external-id policies are the two steps above; the incoming name is then
appended to `alternative_names` when it differs (case-sensitively) from
the primary name and is not yet recorded, `last_updated` is refreshed, and
the lowercase incoming name is registered in `name_to_id_map`. -/
def update_node (st : KGUState) (node_id : String) (e : EntityInfo) (now : String) :
    Except PyErr KGUState :=
  match dictGet st.graph.nodes node_id with
  | none => .error (.keyError node_id)
  | some nd =>
    match externalIdsStep (descriptionStep nd.properties e) e with
    | .error er => .error er
    | .ok p2 =>
      let altNames :=
        if e.name ≠ p2.primary_name ∧ e.name ∉ p2.alternative_names
        then p2.alternative_names ++ [e.name] else p2.alternative_names
      let p3 := { p2 with alternative_names := altNames, last_updated := now }
      .ok {
        graph := { st.graph with
          nodes := dictInsert st.graph.nodes node_id { nd with properties := p3 } }
        name_to_id_map := dictInsert st.name_to_id_map (pyLower e.name) node_id }

/-- The `relation_info` dict that `process_abstract` passes to
`create_update_edge` (lines 307-319); `statistical_evidence` is absent
there, so `relation_info.get("statistical_evidence", {})` yields `{}`. -/
structure RelInput where
  relationship_type : String
  paper_id : String
  citation_metadata : Citation
  experimental_context : JVal
  extracted_text : String
  confidence : ℚ

/-- The edge key `f"{source_id}_{target_id}_{relationship_type}"`. -/
def edgeKey (source_id target_id relationship_type : String) : String :=
  source_id ++ "_" ++ target_id ++ "_" ++ relationship_type

/-- The fresh edge record of `create_update_edge` (lines 197-211). -/
def freshEdge (source_id target_id relationship_type now : String) : EdgeData := {
  type := "string"
  source_node := source_id
  target_node := target_id
  relationship_type := relationship_type
  evidence := []
  aggregated_metadata := {
    total_papers := 0
    earliest_evidence := none
    latest_evidence := none
    evidence_strength := 0
    contradictory_evidence := false
    last_updated := none }
  last_updated := now }

/-- The evidence dict of `create_update_edge` (lines 214-222). -/
def mkEvidence (ri : RelInput) (now : String) : Evidence := {
  paper_id := ri.paper_id
  citation_metadata := ri.citation_metadata
  experimental_context := ri.experimental_context
  statistical_evidence := .obj []
  extracted_text := ri.extracted_text
  extraction_confidence := ri.confidence
  last_verified := now }

/-- Python truthiness of `e["citation_metadata"]["year"]`: both `None` and
the int `0` are falsy and are filtered out of the year aggregation. -/
def truthyYear : Option Int → Option Int
  | none => none
  | some y => if y = 0 then none else some y

/-- `KnowledgeGraphUpdater._update_edge_metadata` (lines 239-254): recompute
all aggregates from the full evidence list; `evidence_strength` is
`np.mean` of the confidences (it is only invoked right after an append, so
the list is nonempty). -/
def updateEdgeMetadata (ed : EdgeData) (now : String) : EdgeData :=
  let evs := ed.evidence
  let years := evs.filterMap (fun ev => truthyYear ev.citation_metadata.year)
  { ed with aggregated_metadata := {
      total_papers := evs.length
      earliest_evidence := listMin years
      latest_evidence := listMax years
      evidence_strength := (evs.map (fun ev => ev.extraction_confidence)).sum / (evs.length : ℚ)
      contradictory_evidence := ed.aggregated_metadata.contradictory_evidence
      last_updated := some now } }

/-- The duplicate check and append of `create_update_edge` (lines 224-227,
with `_is_duplicate_evidence`, lines 231-237): append the evidence and
recompute the metadata unless an evidence item with the same `paper_id` is
already recorded.  The `match` scrutinises a key the caller just ensured
present, so the `none` branch is unreachable. -/
def upsertEvidence (edges1 : List (String × EdgeData)) (key : String) (ev : Evidence)
    (now : String) : List (String × EdgeData) :=
  match dictGet edges1 key with
  | none => edges1
  | some ed =>
    if ed.evidence.any (fun ev0 => ev0.paper_id == ev.paper_id) then edges1
    else dictInsert edges1 key (updateEdgeMetadata { ed with evidence := ed.evidence ++ [ev] } now)

/-- `KnowledgeGraphUpdater.create_update_edge` (lines 190-229): create an
empty edge record if the key is absent, then dedup-append the evidence;
returns the new graph and the edge key. -/
def create_update_edge (g : KGraph) (source_id target_id : String) (ri : RelInput)
    (now : String) : KGraph × String :=
  let key := edgeKey source_id target_id ri.relationship_type
  let edges1 :=
    if (dictGet g.edges key).isSome then g.edges
    else dictInsert g.edges key (freshEdge source_id target_id ri.relationship_type now)
  ({ g with edges := upsertEvidence edges1 key (mkEvidence ri now) now }, key)

/-! ### `KnowledgeGraphUpdater.process_abstract` and the `main.py` loop -/

/-- The abstract record of `data.json` (`parse_medline_record` in
`src/pubmed_scraper.py`). -/
structure AbstractInfo where
  pmid : String
  title : String
  abstract : String
  authors : List String
  journal : String
  year : Option Int

/-- One change record appended by `process_abstract` (lines 321-326). -/
structure UpdateRec where
  edge_id : String
  source_id : String
  target_id : String
  action : String
deriving DecidableEq, Repr

/-- The resolve-or-create step that `process_abstract` performs for the
source and the target entity of each relation (lines 285-299): a resolved
id is merged via `update_node`, otherwise a node is created. -/
def resolveOrCreate (st : KGUState) (e : EntityInfo) (now : String) :
    Except PyErr (String × KGUState) :=
  match find_matching_entity st e (mkRat 1 2) with
  | .error er => .error er
  | .ok (some node_id) =>
    match update_node st node_id e now with
    | .error er => .error er
    | .ok st' => .ok (node_id, st')
  | .ok none => create_node st e now

/-- The per-relation loop of `process_abstract` (lines 283-326).  The state
is threaded through every mutation; when a relation fails, the already
performed mutations are kept (nothing is rolled back) and the error is
returned together with the mutated state.  The change record's action is
computed AFTER the upsert, as `"updated" if edge_id in self.graph["edges"]
else "created"`. -/
def kgu_process_relations (st : KGUState) (ab : AbstractInfo) (now : String) :
    List RelationInfo → Except PyErr (List UpdateRec) × KGUState
  | [] => (.ok [], st)
  | rel :: rest =>
    match resolveOrCreate st rel.source_entity now with
    | .error er => (.error er, st)
    | .ok (source_id, st1) =>
      match resolveOrCreate st1 rel.target_entity now with
      | .error er => (.error er, st1)
      | .ok (target_id, st2) =>
        let ri : RelInput := {
          relationship_type := rel.relationship_type
          paper_id := ab.pmid
          citation_metadata := {
            title := ab.title
            authors := ab.authors
            journal := ab.journal
            year := ab.year }
          experimental_context := rel.context
          extracted_text := rel.supporting_text
          confidence := rel.confidence }
        match create_update_edge st2.graph source_id target_id ri now with
        | (g3, edge_id) =>
          let st3 : KGUState := { st2 with graph := g3 }
          let u : UpdateRec := {
            edge_id := edge_id
            source_id := source_id
            target_id := target_id
            action := if (dictGet st3.graph.edges edge_id).isSome then "updated" else "created" }
          match kgu_process_relations st3 ab now rest with
          | (.ok us, st4) => (.ok (u :: us), st4)
          | (.error er, st4) => (.error er, st4)

/-- `KnowledgeGraphUpdater.process_abstract` (lines 256-336).  The external
extraction (`self.model.process_abstract`) is an oracle: its outcome is
passed in.  The PubTator normalization loop (lines 263-273) enriches only
the `entities` list, which is never read afterwards — `process_abstract`
builds the graph solely from `relations`, whose `EntityInfo` objects are
constructed separately — and its failures are caught per entity, so it has
no observable effect on the state and is not modelled.  The final
`except ... raise` re-raises any error unchanged, with all mutations made
so far still in place. -/
def kgu_process_abstract (extraction : Except PyErr (List EntityInfo × List RelationInfo))
    (st : KGUState) (ab : AbstractInfo) (now : String) :
    Except PyErr (List UpdateRec) × KGUState :=
  match extraction with
  | .error er => (.error er, st)
  | .ok (_entities, relations) => kgu_process_relations st ab now relations

/-- The driver loop of `main.py` (lines 82-94): each abstract is processed
inside `try`; on success `save_graph()` overwrites the persisted document
with the in-memory graph; on any exception the handler only logs, so the
persisted document is left as it was, and the loop continues with the next
abstract.  Returns the final in-memory state and the persisted graph. -/
def mainLoop (extract : AbstractInfo → Except PyErr (List EntityInfo × List RelationInfo))
    (now : String) : List AbstractInfo → KGUState → KGraph → KGUState × KGraph
  | [], st, persisted => (st, persisted)
  | ab :: rest, st, persisted =>
    let r := kgu_process_abstract (extract ab) st ab now
    match r.1 with
    | .ok _ => mainLoop extract now rest r.2 r.2.graph
    | .error _ => mainLoop extract now rest r.2 persisted

/-! ### Concrete fixtures used by the claim theorems -/

/-- A fixed timestamp standing in for `datetime.now().isoformat()`. -/
def demoNow : String := "2025-01-01T00:00:00"

/-- Properties of a node created for BRCA1 (GENE) from an extraction that
carried no description and no external ids. -/
def brcaProps : NodeProps := {
  entity_type := "GENE"
  primary_name := "BRCA1"
  alternative_names := []
  external_ids := none
  description := none
  last_updated := demoNow
  creation_date := demoNow }

/-- A one-node graph state holding BRCA1. -/
def stBRCA : KGUState := {
  graph := {
    nodes := [("node_0", { type := "string", properties := brcaProps })]
    edges := [] }
  name_to_id_map := [("brca1", "node_0")] }

/-- Incoming entity BRCA2 (GENE): no exact hit, fuzzy score 4/5 vs BRCA1. -/
def entBRCA2 : EntityInfo :=
  { name := "BRCA2", type := "GENE", description := none, external_ids := none }

/-- Incoming entity BRCA1 (GENE) carrying external ids. -/
def entWithIds : EntityInfo :=
  { name := "BRCA1", type := "GENE", description := none,
    external_ids := some [("UMLS", "C0376571")] }

/-- The empty graph (a missing or empty persisted document). -/
def kgEmpty : KGraph := { nodes := [], edges := [] }

/-- The updater state over the empty graph. -/
def emptyState : KGUState := { graph := kgEmpty, name_to_id_map := [] }

/-- Extracted entity GeneA (GENE). -/
def geneA : EntityInfo :=
  { name := "GeneA", type := "GENE", description := none, external_ids := none }

/-- Extracted entity DiseaseB (DISEASE). -/
def diseaseB : EntityInfo :=
  { name := "DiseaseB", type := "DISEASE", description := none, external_ids := none }

/-- Relation GeneA -ASSOCIATE-> DiseaseB with confidence 0.9. -/
def relAB : RelationInfo := {
  source_entity := geneA
  target_entity := diseaseB
  relationship_type := "ASSOCIATE"
  context := .obj []
  supporting_text := "GeneA is associated with DiseaseB"
  confidence := mkRat 9 10 }

/-- A relation whose source GeneAB fuzzy-matches the node GeneA
(score 10/11), forcing the disambiguation path. -/
def relFail : RelationInfo := {
  source_entity := { name := "GeneAB", type := "GENE", description := none, external_ids := none }
  target_entity := diseaseB
  relationship_type := "ASSOCIATE"
  context := .obj []
  supporting_text := "s"
  confidence := mkRat 1 2 }

/-- The abstract record pmid 100. -/
def demoAbstract : AbstractInfo := {
  pmid := "100", title := "T", abstract := "A", authors := [], journal := "J",
  year := some 2020 }

/-- An extraction oracle answering every abstract with `[relAB, relFail]`:
the first relation succeeds and mutates the graph, the second raises in
resolution. -/
def demoExtract : AbstractInfo → Except PyErr (List EntityInfo × List RelationInfo) :=
  fun _ => .ok ([], [relAB, relFail])

/-- A schema-invalid extraction: the entity `{}` is missing the required
`name` and `type`. -/
def invalidExtraction : JVal :=
  .obj [("entities", .arr [.obj []]), ("relations", .arr [])]

/-- A schema-valid extraction (no entities, no relations). -/
def validExtraction : JVal :=
  .obj [("entities", .arr []), ("relations", .arr [])]

/-- A repair oracle whose first two repairs are still invalid and whose
third repair is valid. -/
def demoFixer : Nat → JVal → Except PyErr JVal :=
  fun i _ => .ok (if i == 2 then validExtraction else invalidExtraction)


def demoCitation : Citation := { title := "T", authors := ["A"], journal := "J", year := some 2020 }

def riDemo : RelInput := {
  relationship_type := "ASSOCIATE", paper_id := "100", citation_metadata := demoCitation,
  experimental_context := .obj [], extracted_text := "x", confidence := mkRat 9 10 }

def dupEvidence : Evidence := {
  paper_id := "100", citation_metadata := demoCitation, experimental_context := .obj [],
  statistical_evidence := .obj [], extracted_text := "x", extraction_confidence := mkRat 9 10,
  last_verified := demoNow }

def dupEdge : EdgeData := {
  type := "string"
  source_node := "node_0"
  target_node := "node_1"
  relationship_type := "ASSOCIATE"
  evidence := [dupEvidence]
  aggregated_metadata := {
    total_papers := 1
    earliest_evidence := some 2020
    latest_evidence := some 2020
    evidence_strength := mkRat 9 10
    contradictory_evidence := false
    last_updated := some demoNow }
  last_updated := demoNow }

def gDup : KGraph := { nodes := [], edges := [("node_0_node_1_ASSOCIATE", dupEdge)] }

def riYearZero : RelInput := {
  relationship_type := "ASSOCIATE", paper_id := "p0",
  citation_metadata := { title := "T", authors := [], journal := "J", year := some 0 },
  experimental_context := .obj [], extracted_text := "t", confidence := 1 }

def descProps : NodeProps := {
  entity_type := "GENE"
  primary_name := "TP53"
  alternative_names := []
  external_ids := none
  description := some "old"
  last_updated := demoNow
  creation_date := demoNow }

def stDesc : KGUState := {
  graph := { nodes := [("node_0", { type := "string", properties := descProps })], edges := [] }
  name_to_id_map := [("tp53", "node_0")] }

def entLongDesc : EntityInfo := {
  name := "TP53", type := "GENE",
  description := some "a longer description", external_ids := none }

def stDescAfter : KGUState := {
  graph := {
    nodes := [("node_0", { type := "string", properties := {
      entity_type := "GENE"
      primary_name := "TP53"
      alternative_names := []
      external_ids := none
      description := some "a longer description"
      last_updated := demoNow
      creation_date := demoNow } })]
    edges := [] }
  name_to_id_map := [("tp53", "node_0")] }

def abProps : NodeProps := {
  entity_type := "GENE"
  primary_name := "ab"
  alternative_names := []
  external_ids := none
  description := none
  last_updated := demoNow
  creation_date := demoNow }

def halfNodes : List (String × NodeData) :=
  [("node_0", { type := "string", properties := abProps })]

def entCB : EntityInfo :=
  { name := "cb", type := "GENE", description := none, external_ids := none }

/-! ### Claim theorems -/

example : ratioQ "cb" "ab" = mkRat 1 2 := by decide
example : ratioQ "brca2" "brca1" = mkRat 4 5 := by decide
example : ratioQ "geneab" "genea" = mkRat 10 11 := by decide
example : ratioQ "" "" = 1 := by decide


/-- C1: the claim says that with at least one fuzzy candidate, resolution
delegates to the disambiguation capability and the call completes,
returning the reported node id or no match.  In the code the call can
never complete: `find_matching_entity` passes node-id strings, and
`disambiguate_entity` subscripts each candidate as a dict, raising
`TypeError`.  Concretely, resolving BRCA2 (GENE) against a graph holding
BRCA1 (GENE) yields the candidate list `["node_0"]` and then raises. -/
theorem c1_disambiguation_call_always_raises :
    fuzzyCandidates stBRCA.graph.nodes entBRCA2 (mkRat 1 2) = ["node_0"] ∧
    find_matching_entity stBRCA entBRCA2 (mkRat 1 2) =
      .error (.typeError "string indices must be integers") :=
  ⟨rfl, rfl⟩

/-- C2: the claim says a change record carries action `"created"` when the
edge upsert created a new edge.  The code computes the action AFTER the
upsert as `"updated" if edge_id in self.graph["edges"] else "created"`,
which is always `"updated"`: processing one relation against the empty
graph creates nodes `node_0`, `node_1` and a brand-new edge, yet the
change record says `"updated"`. -/
theorem c2_fresh_edge_reported_updated :
    dictGet emptyState.graph.edges "node_0_node_1_ASSOCIATE" = none ∧
    (kgu_process_abstract (.ok ([], [relAB])) emptyState demoAbstract demoNow).1 =
      .ok [{ edge_id := "node_0_node_1_ASSOCIATE", source_id := "node_0",
             target_id := "node_1", action := "updated" }] :=
  ⟨rfl, rfl⟩

/-- C6 counterexample: the claim says the caller persists whatever was
mutated before the abstract errored.  Running the batch `[demoAbstract]`
whose processing creates two nodes and one edge and then raises on the
second relation leaves the persisted graph EMPTY (0 nodes) while the
in-memory graph holds 2 nodes and 1 edge: on error `main.py` skips
`save_graph()` and only logs. -/
theorem c6_error_mutations_not_persisted :
    (mainLoop demoExtract demoNow [demoAbstract] emptyState kgEmpty).2.nodes.length = 0 ∧
    (mainLoop demoExtract demoNow [demoAbstract] emptyState kgEmpty).1.graph.nodes.length = 2 ∧
    (mainLoop demoExtract demoNow [demoAbstract] emptyState kgEmpty).1.graph.edges.length = 1 :=
  ⟨rfl, rfl, rfl⟩

/-- C7: the claim says each repaired result is re-validated and that
exhausting the 3 attempts raises a ValueError naming the invalid part.
With an invalid initial extraction and a repair oracle whose third repair
IS valid, the code still fails — the third repaired extraction is never
re-validated — and the failure is a `TypeError` (the `raise ValueError`
interpolates `len(attempts)` on an int), not a ValueError. -/
theorem c7_exhausted_retries_raise_type_error :
    extractionFlags invalidExtraction = .ok (false, true) ∧
    extractionFlags validExtraction = .ok (true, true) ∧
    extraction_validation_loop demoFixer invalidExtraction =
      .error (.typeError "object of type has no len") :=
  ⟨rfl, rfl, rfl⟩

/-- C8: the claim says merging into a present node id never raises.
Merging `entWithIds` (which carries external ids) into the present node
`node_0` — created from an entity without external ids, so its stored
`external_ids` is `None` — raises `AttributeError` from `None.update(...)`.
An unknown id raises `KeyError` (Python's not-found error), as the claim
expects. -/
theorem c8_update_node_raises_on_present_id :
    update_node stBRCA "node_9" entWithIds demoNow = .error (.keyError "node_9") ∧
    update_node stBRCA "node_0" entWithIds demoNow =
      .error (.attributeError "NoneType object has no attribute update") :=
  ⟨rfl, rfl⟩

/-! ### Helper lemmas about the dict model -/

theorem dictGet_insert_self {α : Type} (d : List (String × α)) (k : String) (v : α) :
    dictGet (dictInsert d k v) k = some v := by
  induction d with
  | nil => simp [dictInsert, dictGet]
  | cons hd tl ih =>
    obtain ⟨k', v'⟩ := hd
    by_cases h : k' = k
    · simp [dictInsert, dictGet, h]
    · simp [dictInsert, dictGet, h, ih]

theorem dictGet_eq_some_iff {α : Type} {d : List (String × α)} {k : String} {v : α}
    (hnd : (d.map Prod.fst).Nodup) : dictGet d k = some v ↔ (k, v) ∈ d := by
  induction d with
  | nil => simp [dictGet]
  | cons hd tl ih =>
    obtain ⟨k', v'⟩ := hd
    rw [List.map_cons, List.nodup_cons] at hnd
    by_cases h : k' = k
    · subst h
      have hd : dictGet ((k', v') :: tl) k' = some v' := by simp [dictGet]
      rw [hd]
      constructor
      · intro hv
        have hvv : v' = v := Option.some.inj hv
        subst hvv
        exact List.mem_cons_self _ _
      · intro hmem
        rcases List.mem_cons.1 hmem with heq | htl
        · injection heq with h1 h2
          subst h2
          rfl
        · exact absurd (List.mem_map_of_mem Prod.fst htl) hnd.1
    · simp only [dictGet, if_neg h, List.mem_cons, Prod.mk.injEq]
      rw [ih hnd.2]
      constructor
      · exact Or.inr
      · rintro (⟨rfl, -⟩ | hmem)
        · exact absurd rfl h
        · exact hmem

/-- The fuzzy phase can never succeed with a node id: with no candidate it
returns `ok none`, and with candidates the disambiguation call raises. -/
theorem fuzzyPhase_ne_ok_some (st : KGUState) (e : EntityInfo) (thr : ℚ) (nid : String) :
    fuzzyPhase st e thr ≠ .ok (some nid) := by
  unfold fuzzyPhase
  cases fuzzyCandidates st.graph.nodes e thr with
  | nil => simp
  | cons c cs => simp [disambiguate_entity]

/-- C3: whenever resolution returns a node id, that node exists and its
`entity_type` equals the incoming entity's type (the only successful path
is the type-checked exact match); and a type-mismatched exact hit falls
through to the fuzzy phase instead of being returned. -/
theorem c3_resolution_respects_entity_type :
    (∀ st e thr nid, find_matching_entity st e thr = .ok (some nid) →
      ∃ nd, dictGet st.graph.nodes nid = some nd ∧
        nd.properties.entity_type = e.type) ∧
    (∀ st e thr nid nd, dictGet st.name_to_id_map (pyLower e.name) = some nid →
      dictGet st.graph.nodes nid = some nd → nd.properties.entity_type ≠ e.type →
      find_matching_entity st e thr = fuzzyPhase st e thr) := by
  constructor
  · intro st e thr nid h
    unfold find_matching_entity at h
    split at h
    next node_id hm =>
      split at h
      next hn => exact absurd h (by simp)
      next nd hn =>
        split at h
        next hty =>
          obtain rfl : node_id = nid := by simpa using h
          exact ⟨nd, hn, by simpa using hty⟩
        next hty => exact absurd h (fuzzyPhase_ne_ok_some st e thr nid)
    next hm => exact absurd h (fuzzyPhase_ne_ok_some st e thr nid)
  · intro st e thr nid nd hm hn ht
    simp [find_matching_entity, hm, hn, ht]

/-- C3 witness: resolving `brca1` (GENE) against the BRCA1 node succeeds
exactly, and the theorem yields the matching typed node. -/
theorem c3_resolution_witness :
    ∃ nd, dictGet stBRCA.graph.nodes "node_0" = some nd ∧
      nd.properties.entity_type =
        (EntityInfo.mk "brca1" "GENE" none none).type :=
  c3_resolution_respects_entity_type.1 stBRCA
    (EntityInfo.mk "brca1" "GENE" none none) (mkRat 1 2) "node_0" rfl

/-- C9: a node id is a fuzzy candidate exactly when the node exists, has
the incoming entity's type, and one of its case-folded known names scores
at least 0.5 against the case-folded incoming name; candidates are listed
without duplicates. -/
theorem c9_fuzzy_candidate_characterization (nodes : List (String × NodeData))
    (e : EntityInfo) (hnd : (nodes.map Prod.fst).Nodup) :
    (∀ nid, nid ∈ fuzzyCandidates nodes e (mkRat 1 2) ↔
      ∃ nd, dictGet nodes nid = some nd ∧ nd.properties.entity_type = e.type ∧
        ∃ kn ∈ knownNames nd.properties, mkRat 1 2 ≤ ratioQ (pyLower e.name) kn) ∧
    (fuzzyCandidates nodes e (mkRat 1 2)).Nodup := by
  constructor
  · intro nid
    simp only [fuzzyCandidates, List.mem_map, List.mem_filter]
    constructor
    · rintro ⟨⟨k, nd⟩, ⟨hmem, hp⟩, rfl⟩
      simp only [Bool.and_eq_true, beq_iff_eq, List.any_eq_true, decide_eq_true_eq] at hp
      exact ⟨nd, (dictGet_eq_some_iff hnd).2 hmem, hp.1, hp.2⟩
    · rintro ⟨nd, hget, hty, kn, hkn, hsc⟩
      refine ⟨(nid, nd), ⟨(dictGet_eq_some_iff hnd).1 hget, ?_⟩, rfl⟩
      simp only [Bool.and_eq_true, beq_iff_eq, List.any_eq_true, decide_eq_true_eq]
      exact ⟨hty, kn, hkn, hsc⟩
  · have hsub : ((nodes.filter (fun p =>
        p.2.properties.entity_type == e.type &&
        (knownNames p.2.properties).any
          (fun kn => decide (mkRat 1 2 ≤ ratioQ (pyLower e.name) kn)))).map Prod.fst).Sublist
        (nodes.map Prod.fst) :=
      (List.filter_sublist nodes).map Prod.fst
    exact hnd.sublist hsub

/-- Recomputing the metadata does not touch the evidence list. -/
theorem updateEdgeMetadata_evidence (ed : EdgeData) (now : String) :
    (updateEdgeMetadata ed now).evidence = ed.evidence := rfl

/-- With the edge key present, the ensure-exists step leaves the edge dict
unchanged. -/
theorem ensure_present {α : Type} (d : List (String × α)) (k : String) (v w : α)
    (hget : dictGet d k = some v) :
    (if (dictGet d k).isSome then d else dictInsert d k w) = d := by
  rw [hget]
  rfl

/-- With the edge key absent, the ensure-exists step inserts the fresh
record. -/
theorem ensure_absent {α : Type} (d : List (String × α)) (k : String) (w : α)
    (hget : dictGet d k = none) :
    (if (dictGet d k).isSome then d else dictInsert d k w) = dictInsert d k w := by
  rw [hget]
  rfl

/-- A duplicate `paper_id` makes the dedup-append step a no-op. -/
theorem upsertEvidence_dup (edges1 : List (String × EdgeData)) (key : String)
    (ev : Evidence) (now : String) (ed : EdgeData)
    (hget : dictGet edges1 key = some ed)
    (hdup : ed.evidence.any (fun ev0 => ev0.paper_id == ev.paper_id) = true) :
    upsertEvidence edges1 key ev now = edges1 := by
  simp [upsertEvidence, hget, hdup]

/-- A fresh `paper_id` appends the evidence and recomputes the metadata. -/
theorem upsertEvidence_new (edges1 : List (String × EdgeData)) (key : String)
    (ev : Evidence) (now : String) (ed : EdgeData)
    (hget : dictGet edges1 key = some ed)
    (hnew : ed.evidence.any (fun ev0 => ev0.paper_id == ev.paper_id) = false) :
    upsertEvidence edges1 key ev now =
      dictInsert edges1 key
        (updateEdgeMetadata { ed with evidence := ed.evidence ++ [ev] } now) := by
  simp [upsertEvidence, hget, hnew]

/-- A duplicate `paper_id` makes `create_update_edge` a strict no-op on the
graph. -/
theorem create_update_edge_dup_noop (g : KGraph) (s t : String) (ri : RelInput)
    (now : String) (ed : EdgeData)
    (hget : dictGet g.edges (edgeKey s t ri.relationship_type) = some ed)
    (hdup : ed.evidence.any (fun ev0 => ev0.paper_id == ri.paper_id) = true) :
    (create_update_edge g s t ri now).1 = g := by
  simp only [create_update_edge]
  rw [ensure_present g.edges _ ed _ hget, upsertEvidence_dup _ _ _ _ ed hget hdup]

/-- After any upsert the edge exists and carries an evidence item with the
upserted `paper_id`. -/
theorem create_update_edge_has_paper (g : KGraph) (s t : String) (ri : RelInput)
    (now : String) :
    ∃ ed, dictGet (create_update_edge g s t ri now).1.edges
        (edgeKey s t ri.relationship_type) = some ed ∧
      ed.evidence.any (fun ev0 => ev0.paper_id == ri.paper_id) = true := by
  cases hget : dictGet g.edges (edgeKey s t ri.relationship_type) with
  | none =>
    simp only [create_update_edge, ensure_absent g.edges _ _ hget]
    rw [upsertEvidence_new _ _ _ _ (freshEdge s t ri.relationship_type now)
      (dictGet_insert_self _ _ _) (by simp [freshEdge])]
    refine ⟨_, dictGet_insert_self _ _ _, ?_⟩
    simp [updateEdgeMetadata, freshEdge, mkEvidence]
  | some ed =>
    simp only [create_update_edge, ensure_present g.edges _ ed _ hget]
    cases hdup : ed.evidence.any (fun ev0 => ev0.paper_id == ri.paper_id) with
    | true =>
      rw [upsertEvidence_dup _ _ _ _ ed hget hdup]
      exact ⟨ed, hget, hdup⟩
    | false =>
      rw [upsertEvidence_new _ _ _ _ ed hget hdup]
      refine ⟨_, dictGet_insert_self _ _ _, ?_⟩
      simp [updateEdgeMetadata, mkEvidence, List.any_append]

/-- C4: re-upserting evidence whose `paper_id` is already on the edge is a
silent no-op on the whole graph, and upserting the same relation evidence
twice (even at different times) yields the same graph as upserting it
once. -/
theorem c4_duplicate_evidence_silent_noop (g : KGraph) (s t : String) (ri : RelInput)
    (now1 now2 : String) :
    (∀ ed, dictGet g.edges (edgeKey s t ri.relationship_type) = some ed →
        ed.evidence.any (fun ev0 => ev0.paper_id == ri.paper_id) = true →
        (create_update_edge g s t ri now2).1 = g) ∧
    (create_update_edge (create_update_edge g s t ri now1).1 s t ri now2).1 =
      (create_update_edge g s t ri now1).1 := by
  constructor
  · intro ed hget hdup
    exact create_update_edge_dup_noop g s t ri now2 ed hget hdup
  · obtain ⟨ed, hget, hdup⟩ := create_update_edge_has_paper g s t ri now1
    exact create_update_edge_dup_noop _ s t ri now2 ed hget hdup


/-- C4 witness: re-upserting the already-recorded paper 100 evidence on the
concrete one-edge graph leaves the graph unchanged. -/
theorem c4_duplicate_witness :
    (create_update_edge gDup "node_0" "node_1" riDemo "2025-02-02T00:00:00").1 = gDup :=
  (c4_duplicate_evidence_silent_noop gDup "node_0" "node_1" riDemo demoNow
    "2025-02-02T00:00:00").1 dupEdge (by rfl) (by rfl)

/-- The recomputed aggregates are exactly the spec functions of the full
evidence list. -/
theorem updateEdgeMetadata_spec (ed : EdgeData) (now : String) :
    (updateEdgeMetadata ed now).aggregated_metadata.total_papers =
        (updateEdgeMetadata ed now).evidence.length ∧
    (updateEdgeMetadata ed now).aggregated_metadata.earliest_evidence =
        listMin ((updateEdgeMetadata ed now).evidence.filterMap
          (fun ev => truthyYear ev.citation_metadata.year)) ∧
    (updateEdgeMetadata ed now).aggregated_metadata.latest_evidence =
        listMax ((updateEdgeMetadata ed now).evidence.filterMap
          (fun ev => truthyYear ev.citation_metadata.year)) ∧
    (updateEdgeMetadata ed now).aggregated_metadata.evidence_strength =
        ((updateEdgeMetadata ed now).evidence.map
          (fun ev => ev.extraction_confidence)).sum /
          ((updateEdgeMetadata ed now).evidence.length : ℚ) :=
  ⟨rfl, rfl, rfl, rfl⟩

/-- C5 (amended): an upsert that appends a non-duplicate evidence item
recomputes all aggregates from the full evidence list — `total_papers` is
the evidence count, `earliest`/`latest` are min/max over the truthy years
(absent years AND the year 0 excluded), `evidence_strength` is the mean
confidence — and grows the evidence list by exactly one item. -/
theorem c5_metadata_recomputed_on_append (g : KGraph) (s t : String) (ri : RelInput)
    (now : String)
    (hnew : ∀ ed, dictGet g.edges (edgeKey s t ri.relationship_type) = some ed →
        ed.evidence.any (fun ev0 => ev0.paper_id == ri.paper_id) = false) :
    ∃ ed', dictGet (create_update_edge g s t ri now).1.edges
        (edgeKey s t ri.relationship_type) = some ed' ∧
      ed'.aggregated_metadata.total_papers = ed'.evidence.length ∧
      ed'.aggregated_metadata.earliest_evidence =
        listMin (ed'.evidence.filterMap (fun ev => truthyYear ev.citation_metadata.year)) ∧
      ed'.aggregated_metadata.latest_evidence =
        listMax (ed'.evidence.filterMap (fun ev => truthyYear ev.citation_metadata.year)) ∧
      ed'.aggregated_metadata.evidence_strength =
        (ed'.evidence.map (fun ev => ev.extraction_confidence)).sum /
          (ed'.evidence.length : ℚ) ∧
      ed'.evidence.length =
        (match dictGet g.edges (edgeKey s t ri.relationship_type) with
          | none => 0
          | some ed => ed.evidence.length) + 1 := by
  cases hget : dictGet g.edges (edgeKey s t ri.relationship_type) with
  | none =>
    simp only [create_update_edge, ensure_absent g.edges _ _ hget]
    rw [upsertEvidence_new _ _ _ _ (freshEdge s t ri.relationship_type now)
      (dictGet_insert_self _ _ _) (by simp [freshEdge])]
    refine ⟨_, dictGet_insert_self _ _ _, (updateEdgeMetadata_spec _ now).1,
      (updateEdgeMetadata_spec _ now).2.1, (updateEdgeMetadata_spec _ now).2.2.1,
      (updateEdgeMetadata_spec _ now).2.2.2, ?_⟩
    simp [updateEdgeMetadata, freshEdge]
  | some ed =>
    simp only [create_update_edge, ensure_present g.edges _ ed _ hget]
    rw [upsertEvidence_new _ _ _ _ ed hget (hnew ed hget)]
    refine ⟨_, dictGet_insert_self _ _ _, (updateEdgeMetadata_spec _ now).1,
      (updateEdgeMetadata_spec _ now).2.1, (updateEdgeMetadata_spec _ now).2.2.1,
      (updateEdgeMetadata_spec _ now).2.2.2, ?_⟩
    simp [updateEdgeMetadata]

/-- C5 witness: upserting the paper-100 evidence into the empty graph
produces an edge whose aggregates satisfy the recomputation equations. -/
theorem c5_metadata_witness :
    ∃ ed', dictGet (create_update_edge kgEmpty "node_0" "node_1" riDemo demoNow).1.edges
        (edgeKey "node_0" "node_1" riDemo.relationship_type) = some ed' ∧
      ed'.aggregated_metadata.total_papers = ed'.evidence.length ∧
      ed'.aggregated_metadata.earliest_evidence =
        listMin (ed'.evidence.filterMap (fun ev => truthyYear ev.citation_metadata.year)) ∧
      ed'.aggregated_metadata.latest_evidence =
        listMax (ed'.evidence.filterMap (fun ev => truthyYear ev.citation_metadata.year)) ∧
      ed'.aggregated_metadata.evidence_strength =
        (ed'.evidence.map (fun ev => ev.extraction_confidence)).sum /
          (ed'.evidence.length : ℚ) ∧
      ed'.evidence.length =
        (match dictGet kgEmpty.edges (edgeKey "node_0" "node_1" riDemo.relationship_type) with
          | none => 0
          | some ed => ed.evidence.length) + 1 :=
  c5_metadata_recomputed_on_append kgEmpty "node_0" "node_1" riDemo demoNow
    (fun _ h => Option.noConfusion h)


/-- C5 counterexample: the claim reads the aggregation over "evidence items
with a known year".  An evidence item with the known year 0 is excluded by
the code's truthiness filter (`if e["citation_metadata"]["year"]`): after
upserting it, the evidence list's known years are `[0]` but
`earliest_evidence`/`latest_evidence` are `None`, not 0. -/
theorem c5_year_zero_counterexample :
    ∃ ed, dictGet (create_update_edge kgEmpty "a" "b" riYearZero demoNow).1.edges
        "a_b_ASSOCIATE" = some ed ∧
      ed.evidence.filterMap (fun ev => ev.citation_metadata.year) = [(0 : Int)] ∧
      ed.aggregated_metadata.earliest_evidence = none ∧
      ed.aggregated_metadata.latest_evidence = none ∧
      ed.aggregated_metadata.earliest_evidence ≠
        listMin (ed.evidence.filterMap (fun ev => ev.citation_metadata.year)) := by
  refine ⟨_, rfl, rfl, rfl, rfl, by decide⟩

/-- The description update policy, read on the observed string value (the
spec's data model types `description` as a string; Python's `None` and `""`
both read as the empty description). -/
theorem description_policy (old inc : Option String) :
    (if truthyOptStr inc then
       (if !truthyOptStr old
           || decide ((old.getD "").length < (inc.getD "").length)
        then inc else old)
     else old).getD "" =
    (if old.getD "" = "" ∨ (old.getD "").length < (inc.getD "").length
     then inc.getD "" else old.getD "") := by
  cases old with
  | none =>
    cases inc with
    | none => simp [truthyOptStr]
    | some s =>
      by_cases hs : s = ""
      · subst hs
        simp [truthyOptStr]
      · simp [truthyOptStr, hs]
  | some t =>
    cases inc with
    | none =>
      by_cases ht : t = ""
      · subst ht
        simp [truthyOptStr]
      · simp [truthyOptStr, ht]
    | some s =>
      by_cases hs : s = ""
      · subst hs
        by_cases ht : t = ""
        · subst ht
          simp [truthyOptStr]
        · simp [truthyOptStr, ht]
      · by_cases ht : t = ""
        · subst ht
          simp [truthyOptStr, hs]
        · by_cases hl : t.length < s.length
          · simp [truthyOptStr, hs, ht, hl]
          · simp [truthyOptStr, hs, ht, hl]

/-- `descriptionStep` realizes the observed description policy. -/
theorem descriptionStep_getD (p0 : NodeProps) (e : EntityInfo) :
    (descriptionStep p0 e).description.getD "" =
      (if p0.description.getD "" = "" ∨
          (p0.description.getD "").length < (e.description.getD "").length
       then e.description.getD "" else p0.description.getD "") := by
  have h := description_policy p0.description e.description
  unfold descriptionStep
  rw [apply_ite (fun p : NodeProps => p.description),
    apply_ite (fun p : NodeProps => p.description)] at *
  exact h

/-- A successful external-id merge step never touches the description. -/
theorem externalIdsStep_description (p1 : NodeProps) (e : EntityInfo) (p2 : NodeProps)
    (h : externalIdsStep p1 e = .ok p2) : p2.description = p1.description := by
  unfold externalIdsStep at h
  split at h
  · split at h
    · exact absurd h (by simp)
    · have := Except.ok.inj h
      rw [← this]
  · have := Except.ok.inj h
    rw [← this]

/-- C10: merging into an existing node replaces the observed description
exactly when the incoming description is strictly longer than the stored
one or the stored one is empty; a shorter-or-equal incoming description
leaves it unchanged. -/
theorem c10_description_replaced_iff_longer (st : KGUState) (node_id : String)
    (e : EntityInfo) (now : String) (nd : NodeData) (st' : KGUState)
    (hget : dictGet st.graph.nodes node_id = some nd)
    (hok : update_node st node_id e now = .ok st') :
    ∃ nd', dictGet st'.graph.nodes node_id = some nd' ∧
      nd'.properties.description.getD "" =
        (if nd.properties.description.getD "" = "" ∨
            (nd.properties.description.getD "").length < (e.description.getD "").length
         then e.description.getD "" else nd.properties.description.getD "") := by
  unfold update_node at hok
  split at hok
  next hn => exact absurd hok (by simp)
  next nd0 hn =>
    rw [hget] at hn
    obtain rfl : nd0 = nd := (Option.some.inj hn).symm
    split at hok
    next er heq => exact absurd hok (by simp)
    next p2 heq =>
      have hst' := Except.ok.inj hok
      subst hst'
      refine ⟨_, dictGet_insert_self _ _ _, ?_⟩
      show p2.description.getD "" = _
      rw [externalIdsStep_description _ e p2 heq, descriptionStep_getD]

/-- C10 witness: merging an entity with a strictly longer description into
the TP53 node replaces the stored description. -/
theorem c10_description_witness :
    ∃ nd', dictGet stDescAfter.graph.nodes "node_0" = some nd' ∧
      nd'.properties.description.getD "" =
        (if descProps.description.getD "" = "" ∨
            (descProps.description.getD "").length <
              (entLongDesc.description.getD "").length
         then entLongDesc.description.getD "" else descProps.description.getD "") :=
  c10_description_replaced_iff_longer stDesc "node_0" entLongDesc demoNow
    { type := "string", properties := descProps } stDescAfter (by rfl) (by rfl)

/-- C6 (amended): when processing an abstract errors, the driver loop keeps
the mutated in-memory state (no rollback), leaves the persisted document
untouched for that abstract, and continues with the remaining abstracts. -/
theorem c6_failed_abstract_continues_without_persist
    (extract : AbstractInfo → Except PyErr (List EntityInfo × List RelationInfo))
    (now : String) (ab : AbstractInfo) (rest : List AbstractInfo)
    (st : KGUState) (persisted : KGraph) (er : PyErr)
    (h : (kgu_process_abstract (extract ab) st ab now).1 = .error er) :
    mainLoop extract now (ab :: rest) st persisted =
      mainLoop extract now rest (kgu_process_abstract (extract ab) st ab now).2 persisted := by
  simp only [mainLoop]
  rw [h]

/-- C6 witness: the batch of two copies of the failing abstract steps into
processing the second with the first abstract's mutations kept in memory
and nothing newly persisted. -/
theorem c6_continue_witness :
    mainLoop demoExtract demoNow [demoAbstract, demoAbstract] emptyState kgEmpty =
      mainLoop demoExtract demoNow [demoAbstract]
        (kgu_process_abstract (demoExtract demoAbstract) emptyState demoAbstract demoNow).2
        kgEmpty :=
  c6_failed_abstract_continues_without_persist demoExtract demoNow demoAbstract
    [demoAbstract] emptyState kgEmpty (.typeError "string indices must be integers") (by rfl)


/-- C9 witness: against the node named `ab`, the query `cb` scores exactly
1/2 and IS a candidate (the characterization instantiated at the boundary),
while the query `xy` scores below 1/2 and is not. -/
theorem c9_boundary_witness :
    ("node_0" ∈ fuzzyCandidates halfNodes entCB (mkRat 1 2) ↔
      ∃ nd, dictGet halfNodes "node_0" = some nd ∧
        nd.properties.entity_type = entCB.type ∧
        ∃ kn ∈ knownNames nd.properties,
          mkRat 1 2 ≤ ratioQ (pyLower entCB.name) kn) ∧
    ratioQ "cb" "ab" = mkRat 1 2 ∧
    "node_0" ∈ fuzzyCandidates halfNodes entCB (mkRat 1 2) ∧
    "node_0" ∉ fuzzyCandidates halfNodes
      { name := "xy", type := "GENE", description := none, external_ids := none }
      (mkRat 1 2) :=
  ⟨(c9_fuzzy_candidate_characterization halfNodes entCB (by decide)).1 "node_0",
    by decide, by decide, by decide⟩
